import Mathlib

/-!
Shallow embedding of `src/mssql_mcp_server/utils.py` — the functions
`validate_table_name`, `get_db_config` and `get_command`.

The process environment is an explicit read-only snapshot `Env`.
Python's `ValueError` is modelled with `Except String`; a Python dict value
that may be a string, an integer or `None` is modelled by `PyVal`, and a
dict key that may be absent altogether by an `Option` field of `Config`.

The source's regex `^[a-zA-Z0-9_]+(\.[a-zA-Z0-9_]+)?$` is applied with
`re.match`, where `$` matches at the end of the string *or just before one
trailing newline*; the matcher `pythonMatch` below embeds exactly that
semantics.  `str.replace` (used for the `(localdb)\` rewrite) replaces all
non-overlapping occurrences left to right, embedded by `stripLoc`.
`int(...)` is embedded by `pyInt` on its ASCII fragment (whitespace
stripping, optional sign, digits with single interior underscores), and
`str.lower` by `strLower` on its ASCII fragment; no character outside
ASCII lowercases onto a character of the literal `"true"`, so comparisons
against `"true"` agree with Python.
-/

namespace MssqlMcp

/-- Read-only snapshot of the process environment: `none` = variable unset. -/
abbrev Env := String → Option String

/-- `os.getenv(k)`. -/
def getenv (env : Env) (k : String) : Option String := env k

/-- `os.getenv(k, d)`. -/
def getenvD (env : Env) (k d : String) : String := (env k).getD d

/-- The character class `[a-zA-Z0-9_]` of the validation regex (ASCII). -/
def isWordChar (c : Char) : Bool :=
  decide (('a' ≤ c ∧ c ≤ 'z') ∨ ('A' ≤ c ∧ c ≤ 'Z') ∨ ('0' ≤ c ∧ c ≤ '9') ∨ c = '_')

/-- Python `$` (no MULTILINE): the remaining input is empty or one newline. -/
def endOk : List Char → Bool
  | [] => true
  | c :: rest => c == '\n' && rest.isEmpty

/-- The rest of the regex after the leading `[a-zA-Z0-9_]+` run:
`(\.[a-zA-Z0-9_]+)?$` under Python `$` semantics. -/
def tailMatch : List Char → Bool
  | [] => true
  | c :: rest =>
    if c = '\n' then rest.isEmpty
    else if c = '.' then
      !(rest.takeWhile isWordChar).isEmpty && endOk (rest.dropWhile isWordChar)
    else false

/-- `re.match(r'^[a-zA-Z0-9_]+(\.[a-zA-Z0-9_]+)?$', s)` viewed as a Boolean.
Greedy runs are complete here because `.` and `\n` are not word characters. -/
def pythonMatch (s : List Char) : Bool :=
  !(s.takeWhile isWordChar).isEmpty && tailMatch (s.dropWhile isWordChar)

/-- Python `s.split('.')`. -/
def splitDotL : List Char → List (List Char)
  | [] => [[]]
  | c :: rest =>
    if c = '.' then [] :: splitDotL rest
    else
      match splitDotL rest with
      | [] => [[c]]
      | h :: t => (c :: h) :: t

/-- `validate_table_name` from `utils.py`: regex check, then split on `.`,
bracket-quote two parts or the whole name.  `Except.error` models the
raised `ValueError(f"Invalid table name: {table_name}")`. -/
def validate_table_name (table_name : String) : Except String String :=
  if pythonMatch table_name.data then
    match splitDotL table_name.data with
    | [p0, p1] => Except.ok ("[" ++ String.mk p0 ++ "].[" ++ String.mk p1 ++ "]")
    | _ => Except.ok ("[" ++ table_name ++ "]")
  else Except.error ("Invalid table name: " ++ table_name)

/-! ### Values of the configuration dict -/

/-- A Python value stored in the configuration dict: a string, an `int`
(after a successful port parse) or `None`. -/
inductive PyVal where
  | vstr (s : String)
  | vint (n : Int)
  | vnone
deriving DecidableEq

/-- Python truthiness of such a value (`""` and `None` are falsy). -/
def truthy : PyVal → Bool
  | .vstr s => s != ""
  | .vint n => n != 0
  | .vnone => false

/-- `os.getenv(k)` as a dict value: unset becomes `None`. -/
def pyGet (env : Env) (k : String) : PyVal :=
  match env k with
  | some s => .vstr s
  | none => .vnone

/-! ### Python `int(...)` on its ASCII fragment -/

/-- ASCII whitespace stripped by Python `int(str)`. -/
def isPySpace (c : Char) : Bool :=
  c == ' ' || c == '\t' || c == '\n' || c == '\x0B' || c == '\x0C' || c == '\r'

/-- Digit run with single interior underscores, accumulating a value. -/
def digitsCore : List Char → Nat → Option Nat
  | [], acc => some acc
  | c :: rest, acc =>
    if c.isDigit then digitsCore rest (acc * 10 + (c.toNat - 48))
    else if c = '_' then
      match rest with
      | d :: _ => if d.isDigit then digitsCore rest acc else none
      | [] => none
    else none

/-- A nonempty digit run (underscores allowed between digits only). -/
def parseDigits : List Char → Option Nat
  | [] => none
  | c :: rest => if c.isDigit then digitsCore rest (c.toNat - 48) else none

/-- Python `int(s)` (ASCII fragment): strip whitespace, optional sign,
digits.  `none` models the raised `ValueError`. -/
def pyInt (s : String) : Option Int :=
  let t := ((s.data.dropWhile isPySpace).reverse.dropWhile isPySpace).reverse
  match t with
  | '+' :: rest => (parseDigits rest).map Int.ofNat
  | '-' :: rest => (parseDigits rest).map (fun n => -(Int.ofNat n))
  | _ => (parseDigits t).map Int.ofNat

/-! ### String helpers used by `get_db_config` -/

/-- ASCII fragment of Python `str.lower` (sufficient for comparisons
against the ASCII literal `"true"`). -/
def strLower (s : String) : String := String.mk (s.data.map Char.toLower)

/-- The literal `(localdb)\` tested with `str.startswith`. -/
def locMark : List Char := "(localdb)\\".data

/-- Python `server.replace("(localdb)\\", "")`: remove every
non-overlapping occurrence of the ten characters of `(localdb)\`,
scanning left to right. -/
def stripLoc : List Char → List Char
  | '(' :: 'l' :: 'o' :: 'c' :: 'a' :: 'l' :: 'd' :: 'b' :: ')' :: '\\' :: rest => stripLoc rest
  | c :: rest => c :: stripLoc rest
  | [] => []

/-- Python `needle in hay` (substring containment). -/
def containsSub (hay needle : List Char) : Bool :=
  match hay with
  | [] => needle.isEmpty
  | _ :: rest => needle.isPrefixOf hay || containsSub rest needle

/-- The Azure suffix tested by the source. -/
def azureSuffix : List Char := ".database.windows.net".data

/-- `config["server"] and ".database.windows.net" in config["server"]`. -/
def isAzure (s : String) : Bool := s != "" && containsSub s.data azureSuffix

/-- Lines 35–46 of `utils.py`: read `MSSQL_SERVER` (default `localhost`)
and rewrite a `(localdb)\`-prefixed value to `.\` + the value with every
occurrence of `(localdb)\` removed (Python `str.replace`). -/
def resolveServer (env : Env) : String :=
  let server := getenvD env "MSSQL_SERVER" "localhost"
  if locMark.isPrefixOf server.data then ".\\" ++ String.mk (stripLoc server.data)
  else server

/-- `os.getenv(k, d).lower() == "true"` — the source's Boolean-flag read. -/
def envFlag (env : Env) (k d : String) : Bool := strLower (getenvD env k d) == "true"

/-- Lines 53 and 61–66 of `utils.py`: `config["port"]` starts as the string
`os.getenv("MSSQL_PORT", "1433")`; if `MSSQL_PORT` is set and nonempty,
try `int(...)` and on `ValueError` keep the previous (string) value. -/
def resolvePort (env : Env) : PyVal :=
  match env "MSSQL_PORT" with
  | none => .vstr "1433"
  | some p =>
    if p != "" then
      match pyInt p with
      | some n => .vint n
      | none => .vstr p
    else .vstr p

/-- Line 71: `tds_version` is set to `"7.4"` only in the Azure branch. -/
def resolveTds (env : Env) : Option String :=
  if isAzure (resolveServer env) then some "7.4" else none

/-- Lines 70–78: in the Azure branch `encrypt` is set to `True` only when
`MSSQL_ENCRYPT` (default `"true"`) lowercases to `"true"` — otherwise the
key is never written; in the non-Azure branch `encrypt` is always set to
the flag value (default `"false"`). -/
def resolveEncrypt (env : Env) : Option Bool :=
  if isAzure (resolveServer env) then
    if envFlag env "MSSQL_ENCRYPT" "true" then some true else none
  else some (envFlag env "MSSQL_ENCRYPT" "false")

/-- `config["user"]` before the authentication branch. -/
def userVal (env : Env) : PyVal := pyGet env "MSSQL_USER"

/-- `config["password"]` before the authentication branch. -/
def passwordVal (env : Env) : PyVal := pyGet env "MSSQL_PASSWORD"

/-- `config["database"]`. -/
def databaseVal (env : Env) : PyVal := pyGet env "MSSQL_DATABASE"

/-- The configuration dict.  `user`/`password` are `Option PyVal`: `none`
means the key is absent (popped), `some v` that the key is present with
value `v` (possibly `PyVal.vnone`, Python `None`).  `encrypt = none`
means the `encrypt` key was never written. -/
structure Config where
  server : String
  user : Option PyVal
  password : Option PyVal
  database : PyVal
  port : PyVal
  tds_version : Option String
  encrypt : Option Bool
deriving DecidableEq

/-- The dict as assembled at lines 48–78, before the authentication branch
(`user` and `password` keys still present). -/
def baseConfig (env : Env) : Config :=
  { server := resolveServer env
    user := some (userVal env)
    password := some (passwordVal env)
    database := databaseVal env
    port := resolvePort env
    tds_version := resolveTds env
    encrypt := resolveEncrypt env }

/-- The message of both `ValueError`s raised by `get_db_config`. -/
def missingMsg : String := "Missing required database configuration"

/-- Lines 81–101 of `utils.py`: the authentication branch.  Windows
authentication (`MSSQL_WINDOWS_AUTH` lowercases to `"true"`) requires a
truthy database and pops `user`/`password`; SQL authentication requires
`user`, `password` and `database` all truthy. -/
def get_db_config (env : Env) : Except String Config :=
  if envFlag env "MSSQL_WINDOWS_AUTH" "false" then
    if truthy (databaseVal env) then
      Except.ok { baseConfig env with user := none, password := none }
    else Except.error missingMsg
  else
    if truthy (userVal env) && truthy (passwordVal env) && truthy (databaseVal env) then
      Except.ok (baseConfig env)
    else Except.error missingMsg

/-- `get_command` from `utils.py`. -/
def get_command (env : Env) : String := getenvD env "MSSQL_COMMAND" "execute_sql"

/-! ### Concrete environment snapshots used as test inputs -/

/-- Environment with nothing set. -/
def emptyEnv : Env := fun _ => none

/-- Azure server, SQL credentials set, `MSSQL_ENCRYPT` unset. -/
def envAz : Env := fun k =>
  if k = "MSSQL_SERVER" then some "foo.database.windows.net"
  else if k = "MSSQL_USER" then some "u"
  else if k = "MSSQL_PASSWORD" then some "p"
  else if k = "MSSQL_DATABASE" then some "d" else none

/-- Azure server with `MSSQL_ENCRYPT=false` and SQL credentials set. -/
def envAzEncOff : Env := fun k =>
  if k = "MSSQL_SERVER" then some "foo.database.windows.net"
  else if k = "MSSQL_ENCRYPT" then some "false"
  else if k = "MSSQL_USER" then some "u"
  else if k = "MSSQL_PASSWORD" then some "p"
  else if k = "MSSQL_DATABASE" then some "d" else none

/-- Credentials set and `MSSQL_PORT=notanumber`. -/
def envBadPort : Env := fun k =>
  if k = "MSSQL_PORT" then some "notanumber"
  else if k = "MSSQL_USER" then some "u"
  else if k = "MSSQL_PASSWORD" then some "p"
  else if k = "MSSQL_DATABASE" then some "d" else none

/-- Credentials set, `MSSQL_PORT` unset. -/
def envNoPort : Env := fun k =>
  if k = "MSSQL_USER" then some "u"
  else if k = "MSSQL_PASSWORD" then some "p"
  else if k = "MSSQL_DATABASE" then some "d" else none

/-- Password and database set, `MSSQL_USER` unset. -/
def envNoUser : Env := fun k =>
  if k = "MSSQL_PASSWORD" then some "p"
  else if k = "MSSQL_DATABASE" then some "d" else none

/-- User and database set, `MSSQL_PASSWORD` unset. -/
def envNoPassword : Env := fun k =>
  if k = "MSSQL_USER" then some "u"
  else if k = "MSSQL_DATABASE" then some "d" else none

/-- Windows authentication on, everything else set too. -/
def envWinA : Env := fun k =>
  if k = "MSSQL_WINDOWS_AUTH" then some "true"
  else if k = "MSSQL_USER" then some "u"
  else if k = "MSSQL_PASSWORD" then some "p"
  else if k = "MSSQL_DATABASE" then some "d" else none

/-- LocalDB-style server with SQL credentials. -/
def envLocal : Env := fun k =>
  if k = "MSSQL_SERVER" then some "(localdb)\\MSSQLLocalDB"
  else if k = "MSSQL_USER" then some "u"
  else if k = "MSSQL_PASSWORD" then some "p"
  else if k = "MSSQL_DATABASE" then some "d" else none

/-- Server containing the `(localdb)\` marker twice, with SQL credentials. -/
def envLocal2 : Env := fun k =>
  if k = "MSSQL_SERVER" then some "(localdb)\\(localdb)\\X"
  else if k = "MSSQL_USER" then some "u"
  else if k = "MSSQL_PASSWORD" then some "p"
  else if k = "MSSQL_DATABASE" then some "d" else none

/-- `MSSQL_COMMAND` set. -/
def envCmd : Env := fun k => if k = "MSSQL_COMMAND" then some "run_it" else none

/-- Parametric snapshot: `MSSQL_WINDOWS_AUTH` set to `s`, database set,
user and password unset. -/
def envWinF (s : String) : Env := fun k =>
  if k = "MSSQL_WINDOWS_AUTH" then some s
  else if k = "MSSQL_DATABASE" then some "d" else none

/-- Parametric snapshot: `MSSQL_ENCRYPT` set to `s`, SQL credentials set,
server unset (so `localhost`, not Azure). -/
def envEncF (s : String) : Env := fun k =>
  if k = "MSSQL_ENCRYPT" then some s
  else if k = "MSSQL_USER" then some "u"
  else if k = "MSSQL_PASSWORD" then some "p"
  else if k = "MSSQL_DATABASE" then some "d" else none

/-! ### Helper lemmas -/

theorem takeWhile_eq_self {p : Char → Bool} {l : List Char}
    (h : ∀ c ∈ l, p c = true) : l.takeWhile p = l := by
  induction l with
  | nil => rfl
  | cons c t ih =>
    have hc := h c (by simp)
    simp [List.takeWhile_cons, hc, ih (fun x hx => h x (by simp [hx]))]

theorem dropWhile_eq_nil {p : Char → Bool} {l : List Char}
    (h : ∀ c ∈ l, p c = true) : l.dropWhile p = [] := by
  induction l with
  | nil => rfl
  | cons c t ih =>
    have hc := h c (by simp)
    simp [List.dropWhile_cons, hc, ih (fun x hx => h x (by simp [hx]))]

theorem takeWhile_append_stop {p : Char → Bool} {l : List Char} (x : Char) (r : List Char)
    (hl : ∀ c ∈ l, p c = true) (hx : p x = false) :
    (l ++ x :: r).takeWhile p = l := by
  induction l with
  | nil => simp [List.takeWhile_cons, hx]
  | cons c t ih =>
    have hc := hl c (by simp)
    simp [List.takeWhile_cons, hc, ih (fun y hy => hl y (by simp [hy]))]

theorem dropWhile_append_stop {p : Char → Bool} {l : List Char} (x : Char) (r : List Char)
    (hl : ∀ c ∈ l, p c = true) (hx : p x = false) :
    (l ++ x :: r).dropWhile p = x :: r := by
  induction l with
  | nil => simp [List.dropWhile_cons, hx]
  | cons c t ih =>
    have hc := hl c (by simp)
    simp [List.dropWhile_cons, hc, ih (fun y hy => hl y (by simp [hy]))]

theorem splitDot_no_dot {l : List Char} (h : ∀ c ∈ l, c ≠ '.') : splitDotL l = [l] := by
  induction l with
  | nil => rfl
  | cons c t ih =>
    have hc : ¬(c = '.') := h c (by simp)
    simp [splitDotL, hc, ih (fun x hx => h x (by simp [hx]))]

theorem splitDot_append {l : List Char} (r : List Char) (h : ∀ c ∈ l, c ≠ '.') :
    splitDotL (l ++ '.' :: r) = l :: splitDotL r := by
  induction l with
  | nil => simp [splitDotL]
  | cons c t ih =>
    have hc : ¬(c = '.') := h c (by simp)
    have iht := ih (fun x hx => h x (by simp [hx]))
    simp [splitDotL, hc, iht]

theorem word_not_dot {c : Char} (h : isWordChar c = true) : c ≠ '.' := by
  intro hc
  rw [hc] at h
  exact absurd h (by decide)

theorem pythonMatch_word {l : List Char} (hne : l ≠ [])
    (h : ∀ c ∈ l, isWordChar c = true) : pythonMatch l = true := by
  unfold pythonMatch
  rw [takeWhile_eq_self h, dropWhile_eq_nil h]
  cases l with
  | nil => exact absurd rfl hne
  | cons c t => simp [tailMatch]

theorem pythonMatch_qualified {a b : List Char} (hna : a ≠ [])
    (ha : ∀ c ∈ a, isWordChar c = true) (hnb : b ≠ [])
    (hb : ∀ c ∈ b, isWordChar c = true) :
    pythonMatch (a ++ '.' :: b) = true := by
  unfold pythonMatch
  rw [takeWhile_append_stop '.' b ha (by decide), dropWhile_append_stop '.' b ha (by decide)]
  have ht : tailMatch ('.' :: b) =
      (!(b.takeWhile isWordChar).isEmpty && endOk (b.dropWhile isWordChar)) := by
    simp [tailMatch]
  rw [ht, takeWhile_eq_self hb, dropWhile_eq_nil hb]
  cases a with
  | nil => exact absurd rfl hna
  | cons c t =>
    cases b with
    | nil => exact absurd rfl hnb
    | cons d u => simp [endOk]

/-! ### Claims -/

/-- Claim C1: every string of one or more characters from `[A-Za-z0-9_]`
is returned wrapped in square brackets, and every two-part
`schema.table` form of such strings is returned as `[schema].[table]`,
the parts bracket-quoted individually and rejoined with a literal dot. -/
theorem c1_validate_table_name_shapes (a b : String)
    (ha : a.data ≠ [] ∧ ∀ c ∈ a.data, isWordChar c = true)
    (hb : b.data ≠ [] ∧ ∀ c ∈ b.data, isWordChar c = true) :
    validate_table_name a = Except.ok ("[" ++ a ++ "]") ∧
    validate_table_name (a ++ "." ++ b) = Except.ok ("[" ++ a ++ "].[" ++ b ++ "]") := by
  obtain ⟨hna, hwa⟩ := ha
  obtain ⟨hnb, hwb⟩ := hb
  have hda : ∀ c ∈ a.data, c ≠ '.' := fun c hc => word_not_dot (hwa c hc)
  have hdb : ∀ c ∈ b.data, c ≠ '.' := fun c hc => word_not_dot (hwb c hc)
  constructor
  · unfold validate_table_name
    rw [pythonMatch_word hna hwa]
    rw [splitDot_no_dot hda]
    rfl
  · have hdata : (a ++ "." ++ b).data = a.data ++ '.' :: b.data := by
      show (a.data ++ ['.']) ++ b.data = a.data ++ '.' :: b.data
      rw [List.append_assoc]
      rfl
    unfold validate_table_name
    rw [hdata, pythonMatch_qualified hna hwa hnb hwb,
      splitDot_append b.data hda, splitDot_no_dot hdb]
    rfl

/-- Claim C1 witness: concrete inputs `dbo` and `dbo.users`. -/
theorem c1_witness :
    (("dbo" : String).data ≠ [] ∧ ∀ c ∈ ("dbo" : String).data, isWordChar c = true) ∧
    validate_table_name "dbo" = Except.ok "[dbo]" ∧
    validate_table_name "dbo.users" = Except.ok "[dbo].[users]" := by
  have ha : ("dbo" : String).data ≠ [] ∧ ∀ c ∈ ("dbo" : String).data, isWordChar c = true := by
    decide
  have hb : ("users" : String).data ≠ [] ∧ ∀ c ∈ ("users" : String).data, isWordChar c = true := by
    decide
  have h := c1_validate_table_name_shapes "dbo" "users" ha hb
  exact ⟨ha, h.1, h.2⟩

/-- Claim C2, evidence of the code bug: `"abc\n"` contains the disallowed
character `'\n'` (so the claim says it must be rejected), yet
`validate_table_name` accepts it and returns `"[abc\n]"`, because Python's
`$` also matches just before one trailing newline. -/
theorem c2_trailing_newline_accepted :
    validate_table_name "abc\n" = Except.ok "[abc\n]" ∧ isWordChar '\n' = false := by
  exact ⟨rfl, by decide⟩

/-- A dict value read from the environment is falsy exactly when the
variable is unset or set to the empty string. -/
theorem truthy_pyGet_eq_false {env : Env} {k : String} :
    truthy (pyGet env k) = false ↔ (env k = none ∨ env k = some "") := by
  unfold pyGet
  cases henv : env k with
  | none => simp [truthy]
  | some s => simp [truthy]

/-- On any successful resolution, every field of the returned record other
than `user`/`password` equals the corresponding pre-branch value. -/
theorem config_fields {env : Env} {c : Config} (h : get_db_config env = Except.ok c) :
    c.server = resolveServer env ∧ c.database = databaseVal env ∧
    c.port = resolvePort env ∧ c.tds_version = resolveTds env ∧
    c.encrypt = resolveEncrypt env := by
  unfold get_db_config at h
  split at h
  · split at h
    · injection h with h'
      subst h'
      exact ⟨rfl, rfl, rfl, rfl, rfl⟩
    · exact Except.noConfusion h
  · split at h
    · injection h with h'
      subst h'
      exact ⟨rfl, rfl, rfl, rfl, rfl⟩
    · exact Except.noConfusion h

/-- Claim C3, evidence of the code bug: with `MSSQL_PORT=notanumber` (and
credentials set) resolution succeeds but the record's `port` is the raw
string `"notanumber"`, not the default integer 1433 the warning message
announces; and with `MSSQL_PORT` unset the `port` value is the string
`"1433"`, not an integer. -/
theorem c3_port_string_retained :
    (get_db_config envBadPort).map Config.port = Except.ok (PyVal.vstr "notanumber") ∧
    (get_db_config envNoPort).map Config.port = Except.ok (PyVal.vstr "1433") := by
  exact ⟨rfl, rfl⟩

/-- Claim C4 counterexample: for an Azure server with `MSSQL_ENCRYPT=false`
resolution succeeds, yet the record carries no `encrypt` key at all
(`none`), refuting "every successfully resolved configuration record
contains an encrypt key with a boolean value". -/
theorem c4_cex_azure_encrypt_absent :
    (get_db_config envAzEncOff).map Config.encrypt = Except.ok none := by
  exact rfl

/-- Claim C4 as amended: on success, for an Azure server the `encrypt` key
is `true` when the `MSSQL_ENCRYPT` flag (default `"true"`) lowercases to
`"true"` and is absent otherwise; for a non-Azure server it is present and
equals the flag value (default `"false"`). -/
theorem c4_encrypt_by_branch (env : Env) (c : Config)
    (h : get_db_config env = Except.ok c) :
    (isAzure c.server = true →
      c.encrypt = (if envFlag env "MSSQL_ENCRYPT" "true" then some true else none)) ∧
    (isAzure c.server = false →
      c.encrypt = some (envFlag env "MSSQL_ENCRYPT" "false")) := by
  obtain ⟨hs, -, -, -, he⟩ := config_fields h
  rw [hs, he]
  constructor <;> intro hz <;> simp [resolveEncrypt, hz]

/-- Claim C4 witness: Azure server with `MSSQL_ENCRYPT` unset resolves
with `encrypt = true`. -/
theorem c4_witness : (get_db_config envAz).map Config.encrypt = Except.ok (some true) := by
  have h : get_db_config envAz = Except.ok (baseConfig envAz) := rfl
  have hz : isAzure (baseConfig envAz).server = true := rfl
  have he := (c4_encrypt_by_branch envAz (baseConfig envAz) h).1 hz
  rw [h]
  show Except.ok (baseConfig envAz).encrypt = Except.ok (some true)
  rw [he]
  rfl

/-- Claim C8: on success, the `tds_version` key is present — with the fixed
value `"7.4"` — exactly when the resolved server contains the substring
`.database.windows.net`. -/
theorem c8_tds_version (env : Env) (c : Config)
    (h : get_db_config env = Except.ok c) :
    c.tds_version = (if isAzure c.server then some "7.4" else none) := by
  obtain ⟨hs, -, -, ht, -⟩ := config_fields h
  rw [hs, ht]
  rfl

/-- Claim C8 witness: the Azure snapshot resolves with `tds_version = "7.4"`. -/
theorem c8_witness :
    (get_db_config envAz).map Config.tds_version = Except.ok (some "7.4") := by
  have h : get_db_config envAz = Except.ok (baseConfig envAz) := rfl
  have ht := c8_tds_version envAz (baseConfig envAz) h
  rw [h]
  show Except.ok (baseConfig envAz).tds_version = Except.ok (some "7.4")
  rw [ht]
  rfl

/-- `config["user"]` is falsy iff `MSSQL_USER` is unset or empty. -/
theorem userVal_falsy {env : Env} :
    truthy (userVal env) = false ↔ (env "MSSQL_USER" = none ∨ env "MSSQL_USER" = some "") :=
  truthy_pyGet_eq_false

/-- `config["password"]` is falsy iff `MSSQL_PASSWORD` is unset or empty. -/
theorem passwordVal_falsy {env : Env} :
    truthy (passwordVal env) = false ↔
      (env "MSSQL_PASSWORD" = none ∨ env "MSSQL_PASSWORD" = some "") :=
  truthy_pyGet_eq_false

/-- `config["database"]` is falsy iff `MSSQL_DATABASE` is unset or empty. -/
theorem databaseVal_falsy {env : Env} :
    truthy (databaseVal env) = false ↔
      (env "MSSQL_DATABASE" = none ∨ env "MSSQL_DATABASE" = some "") :=
  truthy_pyGet_eq_false

/-- Claim C5 counterexample: with only the user missing and with only the
password missing, `get_db_config` raises the *same* fixed error value, so
the error cannot report which fields are missing (the claim's "the error
reports which fields are missing" fails; field values go to the log only). -/
theorem c5_cex_fixed_error :
    get_db_config envNoUser = Except.error missingMsg ∧
    get_db_config envNoPassword = Except.error missingMsg ∧
    envNoUser "MSSQL_USER" = none ∧ envNoUser "MSSQL_PASSWORD" = some "p" ∧
    envNoUser "MSSQL_DATABASE" = some "d" ∧
    envNoPassword "MSSQL_USER" = some "u" ∧ envNoPassword "MSSQL_PASSWORD" = none ∧
    envNoPassword "MSSQL_DATABASE" = some "d" := by
  exact ⟨rfl, rfl, rfl, rfl, rfl, rfl, rfl, rfl⟩

/-- Claim C5 as amended: under SQL-authentication mode, resolution fails
if and only if any of user, password or database is unset or empty, and
any failure carries the fixed message `Missing required database
configuration` (which does not identify the missing fields). -/
theorem c5_sql_auth_missing (env : Env)
    (hflag : envFlag env "MSSQL_WINDOWS_AUTH" "false" = false) :
    (∀ e, get_db_config env = Except.error e → e = missingMsg) ∧
    (get_db_config env = Except.error missingMsg ↔
      (env "MSSQL_USER" = none ∨ env "MSSQL_USER" = some "" ∨
       env "MSSQL_PASSWORD" = none ∨ env "MSSQL_PASSWORD" = some "" ∨
       env "MSSQL_DATABASE" = none ∨ env "MSSQL_DATABASE" = some "")) := by
  unfold get_db_config
  rw [if_neg (fun hcond => Bool.noConfusion (hflag.symm.trans hcond))]
  by_cases hc : (truthy (userVal env) && truthy (passwordVal env) && truthy (databaseVal env)) = true
  · rw [if_pos hc]
    have hsplit : (truthy (userVal env) = true ∧ truthy (passwordVal env) = true) ∧
        truthy (databaseVal env) = true := by
      simpa [Bool.and_eq_true] using hc
    refine ⟨fun e he => Except.noConfusion he, ?_, ?_⟩
    · intro he
      exact Except.noConfusion he
    · intro hd
      exfalso
      rcases hd with h | h | h | h | h | h
      · rw [userVal_falsy.mpr (Or.inl h)] at hsplit
        exact Bool.noConfusion hsplit.1.1
      · rw [userVal_falsy.mpr (Or.inr h)] at hsplit
        exact Bool.noConfusion hsplit.1.1
      · rw [passwordVal_falsy.mpr (Or.inl h)] at hsplit
        exact Bool.noConfusion hsplit.1.2
      · rw [passwordVal_falsy.mpr (Or.inr h)] at hsplit
        exact Bool.noConfusion hsplit.1.2
      · rw [databaseVal_falsy.mpr (Or.inl h)] at hsplit
        exact Bool.noConfusion hsplit.2
      · rw [databaseVal_falsy.mpr (Or.inr h)] at hsplit
        exact Bool.noConfusion hsplit.2
  · rw [if_neg hc]
    refine ⟨fun e he => ?_, fun _ => ?_, fun _ => rfl⟩
    · injection he with h'
      exact h'.symm
    · cases hu : truthy (userVal env) with
      | false =>
        rcases userVal_falsy.mp hu with h | h
        · exact Or.inl h
        · exact Or.inr (Or.inl h)
      | true =>
        cases hp : truthy (passwordVal env) with
        | false =>
          rcases passwordVal_falsy.mp hp with h | h
          · exact Or.inr (Or.inr (Or.inl h))
          · exact Or.inr (Or.inr (Or.inr (Or.inl h)))
        | true =>
          cases hdb : truthy (databaseVal env) with
          | false =>
            rcases databaseVal_falsy.mp hdb with h | h
            · exact Or.inr (Or.inr (Or.inr (Or.inr (Or.inl h))))
            · exact Or.inr (Or.inr (Or.inr (Or.inr (Or.inr h))))
          | true =>
            exfalso
            rw [hu, hp, hdb] at hc
            exact absurd rfl hc

/-- Claim C5 witness: `MSSQL_USER` unset (SQL auth) makes resolution fail
with the fixed message. -/
theorem c5_witness : get_db_config envNoUser = Except.error missingMsg := by
  have h := c5_sql_auth_missing envNoUser rfl
  exact h.2.mpr (Or.inl rfl)

/-- Claim C6: under integrated-authentication mode
(`MSSQL_WINDOWS_AUTH` lowercases to `"true"`), resolution fails with the
`MissingConfiguration` error iff the database is unset or empty, and on
success the record has no `user` and no `password` key at all. -/
theorem c6_windows_auth (env : Env)
    (hflag : envFlag env "MSSQL_WINDOWS_AUTH" "false" = true) :
    (get_db_config env = Except.error missingMsg ↔
      (env "MSSQL_DATABASE" = none ∨ env "MSSQL_DATABASE" = some "")) ∧
    (∀ c, get_db_config env = Except.ok c → c.user = none ∧ c.password = none) := by
  unfold get_db_config
  rw [if_pos hflag]
  by_cases hd : truthy (databaseVal env) = true
  · rw [if_pos hd]
    refine ⟨⟨fun he => Except.noConfusion he, fun hdd => ?_⟩, fun c hc => ?_⟩
    · exfalso
      rw [databaseVal_falsy.mpr hdd] at hd
      exact Bool.noConfusion hd
    · injection hc with h'
      subst h'
      exact ⟨rfl, rfl⟩
  · have hdf : truthy (databaseVal env) = false := by
      cases hdb : truthy (databaseVal env) with
      | false => rfl
      | true => exact absurd hdb hd
    rw [if_neg hd]
    exact ⟨⟨fun _ => databaseVal_falsy.mp hdf, fun _ => rfl⟩,
      fun c hc => Except.noConfusion hc⟩

/-- Claim C6 witness: Windows auth with database, user and password all
set resolves successfully with the `user` and `password` keys removed. -/
theorem c6_witness :
    (get_db_config envWinA).map Config.user = Except.ok none ∧
    (get_db_config envWinA).map Config.password = Except.ok none := by
  have h : get_db_config envWinA =
      Except.ok { baseConfig envWinA with user := none, password := none } := rfl
  have hup := (c6_windows_auth envWinA rfl).2 _ h
  constructor
  · rw [h]
    exact congrArg Except.ok hup.1
  · rw [h]
    exact congrArg Except.ok hup.2

/-- Claim C7 counterexample: for
`MSSQL_SERVER=(localdb)\(localdb)\X` the code removes *every* occurrence
of `(localdb)\` (Python `str.replace`), resolving the server to `.\X`,
whereas stripping only the leading prefix — what the claim states — would
give `.\(localdb)\X`. -/
theorem c7_cex_replace_all :
    (get_db_config envLocal2).map Config.server = Except.ok ".\\X" ∧
    ("(localdb)\\(localdb)\\X" : String).data.drop locMark.length =
      ("(localdb)\\X" : String).data ∧
    (".\\X" : String) ≠ ".\\" ++ "(localdb)\\X" := by
  refine ⟨rfl, rfl, ?_⟩
  decide

/-- Claim C7 as amended: on success, a `(localdb)\`-prefixed
`MSSQL_SERVER` resolves to `.\` followed by the value with every
left-to-right non-overlapping occurrence of `(localdb)\` removed (for a
value containing the prefix once, exactly the prefix-stripped instance
name); a value not beginning with the prefix passes through unchanged. -/
theorem c7_server_rewrite (env : Env) (s : String) (c : Config)
    (hs : env "MSSQL_SERVER" = some s) (h : get_db_config env = Except.ok c) :
    (locMark.isPrefixOf s.data = true →
      c.server = ".\\" ++ String.mk (stripLoc s.data)) ∧
    (locMark.isPrefixOf s.data = false → c.server = s) := by
  have hsv := (config_fields h).1
  have hres : resolveServer env =
      (if locMark.isPrefixOf s.data then ".\\" ++ String.mk (stripLoc s.data) else s) := by
    simp only [resolveServer, getenvD, hs, Option.getD_some]
  rw [hsv, hres]
  constructor <;> intro hp <;> simp [hp]

/-- Claim C7 witness: `(localdb)\MSSQLLocalDB` resolves to
`.\MSSQLLocalDB`. -/
theorem c7_witness :
    (get_db_config envLocal).map Config.server = Except.ok ".\\MSSQLLocalDB" := by
  have h : get_db_config envLocal = Except.ok (baseConfig envLocal) := rfl
  have hp : locMark.isPrefixOf ("(localdb)\\MSSQLLocalDB" : String).data = true := by
    decide
  have hsv := (c7_server_rewrite envLocal "(localdb)\\MSSQLLocalDB"
    (baseConfig envLocal) rfl h).1 hp
  rw [h]
  show Except.ok (baseConfig envLocal).server = Except.ok ".\\MSSQLLocalDB"
  rw [hsv]
  rfl

/-- Claim C9: `get_command` always succeeds, returning the value of
`MSSQL_COMMAND` when set and the fixed default `"execute_sql"` otherwise
(no validation of the value in either case). -/
theorem c9_get_command (env : Env) :
    (∀ v, env "MSSQL_COMMAND" = some v → get_command env = v) ∧
    (env "MSSQL_COMMAND" = none → get_command env = "execute_sql") := by
  constructor
  · intro v hv
    simp only [get_command, getenvD, hv, Option.getD_some]
  · intro hv
    simp only [get_command, getenvD, hv, Option.getD_none]

/-- Claim C9 witness: with `MSSQL_COMMAND=run_it` the override is
returned; with nothing set the default is returned. -/
theorem c9_witness :
    get_command envCmd = "run_it" ∧ get_command emptyEnv = "execute_sql" :=
  ⟨(c9_get_command envCmd).1 "run_it" rfl, (c9_get_command emptyEnv).2 rfl⟩

/-- Claim C10: both boolean flags are interpreted as
`value.lower() == "true"`.  With `MSSQL_WINDOWS_AUTH` set to `s` (database
set, no credentials), resolution succeeds with the `user` key removed iff
`s` lowercases to `"true"`; with `MSSQL_ENCRYPT` set to `s` on a non-cloud
target, the resolved `encrypt` equals whether `s` lowercases to `"true"`. -/
theorem c10_flag_semantics (s : String) :
    ((∃ c, get_db_config (envWinF s) = Except.ok c ∧ c.user = none) ↔
      strLower s = "true") ∧
    (∀ c, get_db_config (envEncF s) = Except.ok c →
      c.encrypt = some (strLower s == "true")) := by
  have hstep : get_db_config (envWinF s) =
      (if (strLower s == "true") = true then
        (if truthy (databaseVal (envWinF s)) = true then
          Except.ok { baseConfig (envWinF s) with user := none, password := none }
        else Except.error missingMsg)
      else
        (if (truthy (userVal (envWinF s)) && truthy (passwordVal (envWinF s)) &&
            truthy (databaseVal (envWinF s))) = true then
          Except.ok (baseConfig (envWinF s))
        else Except.error missingMsg)) := rfl
  have hdb : truthy (databaseVal (envWinF s)) = true := rfl
  have hu : truthy (userVal (envWinF s)) = false := rfl
  constructor
  · constructor
    · rintro ⟨c, hc, -⟩
      by_contra hs
      have hb : (strLower s == "true") = false := by
        simp [hs]
      rw [hstep, hb] at hc
      rw [if_neg (fun hcond => Bool.noConfusion hcond)] at hc
      rw [hu] at hc
      rw [if_neg (fun hcond => Bool.noConfusion hcond)] at hc
      exact Except.noConfusion hc
    · intro hs
      have hb : (strLower s == "true") = true := by
        simp [hs]
      refine ⟨{ baseConfig (envWinF s) with user := none, password := none }, ?_, rfl⟩
      rw [hstep, hb, if_pos rfl, if_pos hdb]
  · intro c hc
    have he : c.encrypt = resolveEncrypt (envEncF s) := (config_fields hc).2.2.2.2
    have hz : isAzure (resolveServer (envEncF s)) = false := rfl
    have henc : resolveEncrypt (envEncF s) = some (envFlag (envEncF s) "MSSQL_ENCRYPT" "false") := by
      unfold resolveEncrypt
      rw [hz]
      rw [if_neg (fun hcond => Bool.noConfusion hcond)]
    rw [he, henc]
    rfl

/-- Claim C10 witness: `"TRUE"` and `"True"` enable the encrypt flag;
`"1"`, `"yes"`, `"on"` and `""` do not. -/
theorem c10_witness :
    (get_db_config (envEncF "TRUE")).map Config.encrypt = Except.ok (some true) ∧
    (get_db_config (envEncF "True")).map Config.encrypt = Except.ok (some true) ∧
    (get_db_config (envEncF "1")).map Config.encrypt = Except.ok (some false) ∧
    (get_db_config (envEncF "yes")).map Config.encrypt = Except.ok (some false) ∧
    (get_db_config (envEncF "on")).map Config.encrypt = Except.ok (some false) ∧
    (get_db_config (envEncF "")).map Config.encrypt = Except.ok (some false) := by
  have h1 : get_db_config (envEncF "TRUE") = Except.ok (baseConfig (envEncF "TRUE")) := rfl
  have h2 : get_db_config (envEncF "True") = Except.ok (baseConfig (envEncF "True")) := rfl
  have h3 : get_db_config (envEncF "1") = Except.ok (baseConfig (envEncF "1")) := rfl
  have h4 : get_db_config (envEncF "yes") = Except.ok (baseConfig (envEncF "yes")) := rfl
  have h5 : get_db_config (envEncF "on") = Except.ok (baseConfig (envEncF "on")) := rfl
  have h6 : get_db_config (envEncF "") = Except.ok (baseConfig (envEncF "")) := rfl
  have e1 := (c10_flag_semantics "TRUE").2 _ h1
  have e2 := (c10_flag_semantics "True").2 _ h2
  have e3 := (c10_flag_semantics "1").2 _ h3
  have e4 := (c10_flag_semantics "yes").2 _ h4
  have e5 := (c10_flag_semantics "on").2 _ h5
  have e6 := (c10_flag_semantics "").2 _ h6
  refine ⟨?_, ?_, ?_, ?_, ?_, ?_⟩
  · rw [h1]; exact congrArg Except.ok (e1.trans rfl)
  · rw [h2]; exact congrArg Except.ok (e2.trans rfl)
  · rw [h3]; exact congrArg Except.ok (e3.trans rfl)
  · rw [h4]; exact congrArg Except.ok (e4.trans rfl)
  · rw [h5]; exact congrArg Except.ok (e5.trans rfl)
  · rw [h6]; exact congrArg Except.ok (e6.trans rfl)

end MssqlMcp
